import Mathlib

/-!
# Verification of igvm provisioning and image utilities

Shallow embedding of the repository's source files:

* `igvm/utils/preparevm.py` — guest root-filesystem preparation, Puppet
  invocation with certificate clearing, service-autostart blocking;
* `managevm/utils/image_packet.py` — base-OS image listing, download with
  checksum verification, extraction;
* the migration rollback invariant exercised by `tests/test_integration.py`
  (the migration engine itself is not among the source files; it is modelled
  from the specification where needed).

Remote (fabric) side effects are embedded as traces of `Event` values over a
structured command algebra `Cmd`; `render` maps each command back to the exact
shell string the source builds, so every constructor corresponds to one
source command.
-/

namespace Igvm

/-- Model of Python `pipes.quote`, which the repository's `cmd` helper applies
to every interpolated argument: safe strings pass through, anything else is
single-quoted with embedded single quotes escaped. -/
def shellQuote (s : String) : String :=
  if s = "" then "''"
  else if s.data.all (fun c =>
      c.isAlphanum || c ∈ ['@', '%', '_', '-', '+', '=', ':', ',', '.', '/']) then s
  else "'" ++ (s.replace "'" "'\"'\"'") ++ "'"

/-- Shell commands issued by the embedded source functions.  Each constructor
stands for one command string built in the source; `render` recovers that
string. -/
inductive Cmd where
  /-- `echo "#!/bin/sh" >> usr/sbin/policy-rc.d` (block_autostart) -/
  | appendPolicyShebang
  /-- `echo "exit 101"  >> usr/sbin/policy-rc.d` (block_autostart) -/
  | appendPolicyExit101
  /-- `chmod +x usr/sbin/policy-rc.d` (block_autostart) -/
  | chmodPolicyExec
  /-- `rm usr/sbin/policy-rc.d` (unblock_autostart) -/
  | rmPolicy
  /-- `chroot . /usr/bin/puppet agent -v --fqdn=... --server ... --ca_server ...`
  (run_puppet) -/
  | puppetAgent (fqdn server ca : String)
  /-- `pkill -9 -f "/usr/bin/puppet agent -v --fqdn=..."` (run_puppet rollback) -/
  | pkillPuppet (fqdn : String)
  /-- `/usr/bin/puppet cert clean {fqdn} || echo "No cert for Host found"`
  (run_puppet fallback certificate cleanup) -/
  | certClean (fqdn : String)
  /-- `echo {value} > {path}` (prepare_vm hostname/mailname) -/
  | echoToFile (value path : String)
  /-- `mkdir -p etc/network` (_create_interfaces) -/
  | mkdirEtcNetwork
  /-- `rm -f etc/ssh/ssh_host_*_key*` (_create_ssh_keys) -/
  | rmSshHostKeys
  /-- `chroot . ssh-keygen -q -t {t} -N "" -f etc/ssh/ssh_host_{t}_key` -/
  | sshKeygen (keyType : String)
  /-- `dd if=/dev/zero of={path} bs=1M count={n}` (_generate_swap) -/
  | ddSwap (path : String) (sizeMiB : Nat)
  /-- `/sbin/mkswap {path}` (_generate_swap) -/
  | mkswapCmd (path : String)
  /-- `/bin/chmod 0600 {path}` (_generate_swap) -/
  | chmodSwap (path : String)
  /-- `md5sum {file}` (download_image) -/
  | md5sumCmd (file : String)
  /-- `rm -f {file}` (download_image) -/
  | rmFile (file : String)
  /-- `wget -nv {url}` (download_image) -/
  | wgetCmd (url : String)
  /-- `tar xfz {image} -C {dir}` (extract_image) -/
  | tarExtract (image dir : String)
  deriving DecidableEq, Repr

/-- Exact command strings the source builds (arguments passed through the
`cmd` helper are `pipes.quote`d, plain `.format` arguments are not). -/
def Cmd.render : Cmd → String
  | .appendPolicyShebang => "echo \"#!/bin/sh\" >> usr/sbin/policy-rc.d"
  | .appendPolicyExit101 => "echo \"exit 101\"  >> usr/sbin/policy-rc.d"
  | .chmodPolicyExec => "chmod +x usr/sbin/policy-rc.d"
  | .rmPolicy => "rm usr/sbin/policy-rc.d"
  | .puppetAgent fqdn server ca =>
      "chroot . /usr/bin/puppet agent -v --fqdn=" ++ fqdn
        ++ " --server " ++ server ++ " --ca_server " ++ ca
        ++ " --no-report --waitforcert=60 --onetime --no-daemonize"
        ++ " --tags=network,puppet --skip_tags=nrpe"
  | .pkillPuppet fqdn =>
      "pkill -9 -f \"/usr/bin/puppet agent -v --fqdn=" ++ fqdn ++ "\""
  | .certClean fqdn =>
      "/usr/bin/puppet cert clean " ++ shellQuote fqdn
        ++ " || echo \"No cert for Host found\""
  | .echoToFile v path => "echo " ++ shellQuote v ++ " > " ++ path
  | .mkdirEtcNetwork => "mkdir -p etc/network"
  | .rmSshHostKeys => "rm -f etc/ssh/ssh_host_*_key*"
  | .sshKeygen t =>
      "chroot . ssh-keygen -q -t " ++ t ++ " -N \"\" -f etc/ssh/ssh_host_" ++ t ++ "_key"
  | .ddSwap path n =>
      "dd if=/dev/zero of=" ++ shellQuote path ++ " bs=1M count=" ++ toString n
  | .mkswapCmd path => "/sbin/mkswap " ++ shellQuote path
  | .chmodSwap path => "/bin/chmod 0600 " ++ shellQuote path
  | .md5sumCmd f => "md5sum " ++ shellQuote f
  | .rmFile f => "rm -f " ++ shellQuote f
  | .wgetCmd url => "wget -nv " ++ shellQuote url
  | .tarExtract image dir =>
      "tar xfz " ++ shellQuote image ++ " -C " ++ shellQuote dir

/-- Values placed into template contexts (`upload_template` keyword data). -/
inductive TValue where
  | s (v : String)
  | list (v : List String)
  deriving DecidableEq, Repr

/-- One observable remote side effect of the embedded functions. -/
inductive Event where
  /-- fabric `run` in the current working context (guest root) -/
  | run (c : Cmd)
  /-- `hypervisor.run` -/
  | hvRun (c : Cmd)
  /-- fabric `run(..., warn_only=True)` under `settings(host_string=host)` -/
  | warnOnlyRun (host : String) (c : Cmd)
  /-- fabric `run` under `settings(host_string=host)` and `cd(dir)` -/
  | remoteRun (host dir : String) (c : Cmd)
  /-- `upload_template(src, dst, context)` -/
  | uploadTemplate (src dst : String) (context : List (String × TValue))
  /-- fabric `put(src, dst, mode)` -/
  | putFile (src dst : String) (mode : Nat)
  /-- fabric `get(path, buffer)` -/
  | getFile (path : String)
  /-- `tx.on_rollback(description, hypervisor.run, command)` -/
  | registerRollback (description : String) (c : Cmd)
  /-- `log.info(message)` -/
  | logInfo (message : String)
  /-- `urllib2.urlopen(url, urllib.urlencode(params))` -/
  | httpPost (url : String) (params : List (String × String))
  /-- `create_authorized_keys(target_dir)` (collaborator call) -/
  | createAuthorizedKeys (dir : String)
  deriving DecidableEq, Repr

/-- `IGVMError` from `igvm.exceptions`. -/
structure IGVMError where
  message : String
  deriving DecidableEq, Repr

/-- Inventory attributes of the VM used by `preparevm.py` (`vm.fqdn`,
`vm.hostname`, `vm.network_config`, `vm.server_obj[...]`). -/
structure VmObj where
  fqdn : String
  hostname : String
  network_config : String
  os : String
  puppet_ca : String
  puppet_master : String
  deriving DecidableEq, Repr

/-- Hypervisor queries used by `preparevm.py`: `vm_mount_path(vm)` and
`vm_block_device_name()`. -/
structure HvObj where
  mountPath : String
  blockDevice : String
  deriving DecidableEq, Repr

/-- Outcome of `urllib2.urlopen` on the controller endpoint: either a
network-level exception (`socket.error` / `urllib2.URLError`) or a delivered
response with an HTTP status code and a body. -/
inductive HttpOutcome where
  | netError (message : String)
  | response (code : Nat) (body : String)
  deriving DecidableEq, Repr

/-- Whitespace characters of Python 2 `str.strip()` and `\s` on byte
strings. -/
def pySpaceChar (c : Char) : Bool :=
  c = ' ' || c = '\t' || c = '\n' || c = '\r' || c = '\x0b' || c = '\x0c'

/-- Python `str.strip()` with no argument: remove leading and trailing
whitespace. -/
def pyStrip (s : String) : String :=
  String.mk (((s.data.dropWhile pySpaceChar).reverse.dropWhile pySpaceChar).reverse)

/-- `block_autostart(hypervisor, vm)`: three `hypervisor.run` calls inside
`cd(vm_mount_path)` installing an executable `usr/sbin/policy-rc.d` that
exits 101. -/
def block_autostart : List Event :=
  [.hvRun .appendPolicyShebang, .hvRun .appendPolicyExit101, .hvRun .chmodPolicyExec]

/-- `unblock_autostart(hypervisor, vm)`: removes `usr/sbin/policy-rc.d`. -/
def unblock_autostart : List Event :=
  [.hvRun .rmPolicy]

/-- `_clear_cert_controller(hostname, puppet_master, token)`: POSTs
`{token, hostname, command: clear}` to `https://{puppet_master}:9000/`;
non-200 responses raise `IGVMError(body.strip())`, network errors raise
`IGVMError(e)`, a 200 response returns normally.  Result paired with the
trace of the attempted request. -/
def clear_cert_controller (hostname puppet_master token : String)
    (out : HttpOutcome) : Except IGVMError Unit × List Event :=
  let ev : Event := .httpPost ("https://" ++ puppet_master ++ ":9000/")
    [("token", token), ("hostname", hostname), ("command", "clear")]
  match out with
  | .netError msg => (.error ⟨msg⟩, [ev])
  | .response code body =>
      if code ≠ 200 then (.error ⟨pyStrip body⟩, [ev]) else (.ok (), [ev])

/-- The certificate-clearing events of `run_puppet` (lines 138-164): nothing
when `clear_cert` is false; with a `PUPPET_CONTROLLER_TOKEN` in the
environment the controller endpoint is tried and either outcome is merely
logged; without a token `puppet cert clean` runs on the CA host with
`warn_only`. -/
def cert_events (vm : VmObj) (clear_cert : Bool) (token : Option String)
    (out : HttpOutcome) : List Event :=
  if clear_cert then
    match token with
    | some t =>
        let r := clear_cert_controller vm.hostname vm.puppet_ca t out
        r.snd ++ [match r.fst with
          | .ok _ => .logInfo ("Cleared Puppet cert of " ++ vm.hostname
              ++ " on " ++ vm.puppet_ca)
          | .error e => .logInfo ("Failed to clear Puppet cert of " ++ vm.hostname
              ++ " on " ++ vm.puppet_ca ++ ": " ++ e.message)]
    | none => [.warnOnlyRun vm.puppet_ca (.certClean vm.fqdn)]
  else []

/-- The rollback registration of `run_puppet` (lines 167-173): with a
non-null transaction, `tx.on_rollback('Kill puppet', hypervisor.run, pkill ...)`. -/
def tx_events (vm : VmObj) (tx : Bool) : List Event :=
  if tx then [.registerRollback "Kill puppet" (.pkillPuppet vm.fqdn)] else []

/-- The `hypervisor.run` invocation of the Puppet agent in chroot
(lines 174-184). -/
def agent_event (vm : VmObj) : Event :=
  .hvRun (.puppetAgent vm.fqdn vm.puppet_master vm.puppet_ca)

/-- `run_puppet(hypervisor, vm, clear_cert, tx)`.  `token` is
`os.environ.get('PUPPET_CONTROLLER_TOKEN')`; `out` the controller response
when consulted; `agentOk` whether the chroot Puppet agent command succeeds.
Returns whether the call returns normally, with its event trace: on agent
failure the exception propagates before `unblock_autostart`. -/
def run_puppet (vm : VmObj) (clear_cert tx : Bool) (token : Option String)
    (out : HttpOutcome) (agentOk : Bool) : Bool × List Event :=
  let pre := block_autostart ++ cert_events vm clear_cert token out
    ++ tx_events vm tx ++ [agent_event vm]
  if agentOk then (true, pre ++ unblock_autostart) else (false, pre)

/-- The slice of the mounted guest root that the autostart block touches:
the lines of `usr/sbin/policy-rc.d` (`none` = file absent) and its
executable bit. -/
structure GuestFs where
  policy : Option (List String)
  policyExec : Bool
  deriving DecidableEq, Repr

/-- Effect of one shell command on the `GuestFs` slice (append-redirect
creates the file when absent; `chmod +x` needs the file; `rm` deletes it). -/
def applyCmdFs (fs : GuestFs) : Cmd → GuestFs
  | .appendPolicyShebang => { fs with policy := some (fs.policy.getD [] ++ ["#!/bin/sh"]) }
  | .appendPolicyExit101 => { fs with policy := some (fs.policy.getD [] ++ ["exit 101"]) }
  | .chmodPolicyExec => if fs.policy.isSome then { fs with policyExec := true } else fs
  | .rmPolicy => { policy := none, policyExec := false }
  | _ => fs

/-- Effect of one event on the guest-root slice: only commands run in the
guest root touch it. -/
def applyEventFs (fs : GuestFs) : Event → GuestFs
  | .run c => applyCmdFs fs c
  | .hvRun c => applyCmdFs fs c
  | _ => fs

/-- Interpret a trace over the guest-root slice. -/
def interpFs (evs : List Event) (fs : GuestFs) : GuestFs :=
  evs.foldl applyEventFs fs

/-- A guest root with no autostart block. -/
def cleanFs : GuestFs := ⟨none, false⟩

/-- The installed autostart block: executable `usr/sbin/policy-rc.d`
containing the shebang line and `exit 101`. -/
def blockedFs : GuestFs := ⟨some ["#!/bin/sh", "exit 101"], true⟩

/-- Modelled from the spec: the values of the module-level defaults
`DEFAULT_DNS_SERVERS` imported from `igvm.settings` are not among the source
files; the spec only says DNS servers have module-level defaults. -/
def DEFAULT_DNS_SERVERS : List String := ["10.0.0.1", "10.0.0.2"]

/-- Modelled from the spec: the value of the module-level default
`DEFAULT_SWAP_SIZE` imported from `igvm.settings` is not among the source
files; the spec only says the swap size has a module-level default. -/
def DEFAULT_SWAP_SIZE : Nat := 1024

/-- Accumulating core of Python `str.split()`: break on whitespace runs,
dropping empty fragments. -/
def splitWsAux : List Char → List Char → List (List Char)
  | [], acc => if acc.isEmpty then [] else [acc.reverse]
  | c :: cs, acc =>
      if pySpaceChar c then
        if acc.isEmpty then splitWsAux cs [] else acc.reverse :: splitWsAux cs []
      else splitWsAux cs (c :: acc)

/-- Python `str.split()` with no argument: split on whitespace runs,
dropping empty fragments. -/
def pySplitWs (s : String) : List String :=
  (splitWsAux s.data []).map String.mk

/-- The key types `_create_ssh_keys` generates: three on wheezy, four
(adding ed25519) otherwise. -/
def key_types (os : String) : List String :=
  if os = "wheezy" then ["dsa", "rsa", "ecdsa"] else ["dsa", "rsa", "ecdsa", "ed25519"]

/-- `_create_ssh_keys(os)`: remove pre-existing host key material, then
generate a fresh key pair per key type via chroot ssh-keygen. -/
def create_ssh_keys (os : String) : List Event :=
  Event.run .rmSshHostKeys :: (key_types os).map (fun t => Event.run (.sshKeygen t))

/-- The pure core of `_get_ssh_public_key(key_type)`: split the fetched
`.pub` file on whitespace, assert the first token is `ssh-{key_type}` and
return the second; `none` models the assertion failure / missing token
(an exception in the source). -/
def get_ssh_public_key (keyType content : String) : Option String :=
  match pySplitWs content with
  | t0 :: rest => if t0 = "ssh-" ++ keyType then rest.head? else none
  | [] => none

/-- `_generate_swap(swap_path, size_MiB)`: dd from /dev/zero, mkswap,
chmod 0600. -/
def generate_swap (path : String) (sizeMiB : Nat) : List Event :=
  [.run (.ddSwap path sizeMiB), .run (.mkswapCmd path), .run (.chmodSwap path)]

/-- `_create_interfaces(network_config)`: mkdir `etc/network`, then upload
the interfaces template with the network configuration. -/
def create_interfaces (network_config : String) : List Event :=
  [.run .mkdirEtcNetwork,
   .uploadTemplate "etc/network/interfaces" "etc/network/interfaces"
     [("network_config", .s network_config)]]

/-- `prepare_vm(hypervisor, vm)` with the VM storage mounted.  `rsaPub` is
the content of `etc/ssh/ssh_host_rsa_key.pub` that the fabric `get`
retrieves after key generation.  Returns the event trace and the value
stored into `vm.server_obj['ssh_pubkey']` (`none` when the public-key
assertion fails, in which case the exception propagates before the
remaining steps). -/
def prepare_vm (hv : HvObj) (vm : VmObj) (rsaPub : String) :
    List Event × Option String :=
  let pre : List Event :=
    [.run (.echoToFile vm.fqdn "etc/hostname"),
     .run (.echoToFile vm.fqdn "etc/mailname")]
    ++ create_interfaces vm.network_config
    ++ create_ssh_keys vm.os
    ++ [.getFile "etc/ssh/ssh_host_rsa_key.pub"]
  match get_ssh_public_key "rsa" rsaPub with
  | none => (pre, none)
  | some key =>
      (pre ++
        [.uploadTemplate "etc/fstab" "etc/fstab"
           [("blk_dev", .s hv.blockDevice), ("type", .s "xfs"),
            ("mount_options", .s "defaults")],
         .uploadTemplate "etc/hosts" "etc/hosts" [],
         .uploadTemplate "etc/inittab" "etc/inittab" [],
         .uploadTemplate "etc/resolv.conf" "etc/resolv.conf"
           [("dns_servers", .list DEFAULT_DNS_SERVERS)]]
        ++ generate_swap (hv.mountPath ++ "/swap") DEFAULT_SWAP_SIZE
        ++ [.createAuthorizedKeys hv.mountPath],
       some key)

/-- Modelled from the spec: "Module-level defaults (DNS servers, swap size)
become explicit configuration passed into the Build workflow" — the prepare
step as the spec prescribes it, with the DNS server list and the swap size
as explicit parameters used in place of the module-level defaults. -/
def prepare_vm_explicit (dns_servers : List String) (swap_size : Nat)
    (hv : HvObj) (vm : VmObj) (rsaPub : String) : List Event × Option String :=
  let pre : List Event :=
    [.run (.echoToFile vm.fqdn "etc/hostname"),
     .run (.echoToFile vm.fqdn "etc/mailname")]
    ++ create_interfaces vm.network_config
    ++ create_ssh_keys vm.os
    ++ [.getFile "etc/ssh/ssh_host_rsa_key.pub"]
  match get_ssh_public_key "rsa" rsaPub with
  | none => (pre, none)
  | some key =>
      (pre ++
        [.uploadTemplate "etc/fstab" "etc/fstab"
           [("blk_dev", .s hv.blockDevice), ("type", .s "xfs"),
            ("mount_options", .s "defaults")],
         .uploadTemplate "etc/hosts" "etc/hosts" [],
         .uploadTemplate "etc/inittab" "etc/inittab" [],
         .uploadTemplate "etc/resolv.conf" "etc/resolv.conf"
           [("dns_servers", .list dns_servers)]]
        ++ generate_swap (hv.mountPath ++ "/swap") swap_size
        ++ [.createAuthorizedKeys hv.mountPath],
       some key)

/-- A concrete hypervisor used to evaluate the definitions on closed inputs. -/
def sampleHv : HvObj := ⟨"/mnt/vm", "vda1"⟩

/-- A concrete VM record used to evaluate the definitions on closed inputs. -/
def sampleVm : VmObj :=
  ⟨"web-1.test.ig.local", "web-1", "netcfg", "jessie",
   "ca.test.ig.local", "master.test.ig.local"⟩

/-- A well-formed RSA public-key file for the sample VM. -/
def sampleRsaPub : String := "ssh-rsa AAAAB3Nza root@web-1"

end Igvm

namespace Managevm

open Igvm (Cmd Event)

/-- `BASE_URL` from `image_packet.py`. -/
def BASE_URL : String := "http://files.innogames.de/"

/-- `PACKET_SERVER` from `image_packet.py`. -/
def PACKET_SERVER : String := "packet.ig.local"

/-- `PACKET_DIR` from `image_packet.py`. -/
def PACKET_DIR : String := "/www/files.innogames.de/htdocs"

/-- Whitespace characters matched by Python 2 `\s` on byte strings. -/
def pySpace (c : Char) : Bool :=
  c = ' ' || c = '\t' || c = '\n' || c = '\r' || c = '\x0b' || c = '\x0c'

/-- Strip a literal character sequence from the front of a list, returning
the remainder on success. -/
def dropLit : List Char → List Char → Option (List Char)
  | [], s => some s
  | _ :: _, [] => none
  | p :: ps, c :: cs => if c = p then dropLit ps cs else none

/-- The literal tail of the regex `(.+?\.tar\.gz)"`: `.tar.gz` followed by
the closing quote. -/
def targzQuote : List Char := ".tar.gz\"".toList

/-- The captured-group suffix `.tar.gz`. -/
def targzSuffix : List Char := ".tar.gz".toList

/-- Non-greedy part of the regex `<a\s+href="(.+?\.tar\.gz)"`: find the
shortest non-empty newline-free `X` with the input equal to
`X ++ ".tar.gz\"" ++ rest`, returning `(X, rest)`.  (`.` in the pattern
does not match a newline.) -/
def scanTarGz : List Char → Option (List Char × List Char)
  | [] => none
  | c :: cs =>
      if c = '\n' then none
      else
        match dropLit targzQuote cs with
        | some rest => some ([c], rest)
        | none =>
            match scanTarGz cs with
            | some (x, rest) => some (c :: x, rest)
            | none => none

/-- Try the full pattern `<a\s+href="` at the head of the input: the
literal `<a`, one or more whitespace characters, then `href="`; returns
what follows.  (`\s+` is greedy but `href="` starts with a non-space
character, so taking the maximal whitespace run is exact.) -/
def matchAnchorAt (s : List Char) : Option (List Char) :=
  match dropLit "<a".toList s with
  | none => none
  | some rest =>
      if (rest.takeWhile pySpace).isEmpty then none
      else dropLit "href=\"".toList (rest.dropWhile pySpace)

/-- Fuel-indexed scan implementing
`re.findall(r'<a\s+href="(.+?\.tar\.gz)"', page)`: leftmost
non-overlapping matches, resuming after each match.  Fuel at least the
input length suffices since every step consumes a character. -/
def findTarGz : Nat → List Char → List String
  | 0, _ => []
  | _ + 1, [] => []
  | fuel + 1, c :: tail =>
      match matchAnchorAt (c :: tail) with
      | some afterHref =>
          match scanTarGz afterHref with
          | some (x, rest) => String.mk (x ++ targzSuffix) :: findTarGz fuel rest
          | none => findTarGz fuel tail
      | none => findTarGz fuel tail

/-- All `.tar.gz` hyperlink targets of a page, per the source regex. -/
def findall_targz (page : String) : List String :=
  findTarGz page.data.length page.data

/-- `get_images()`: `fetch` is the result of `urllib2.urlopen(BASE_URL,
timeout=2).read()` — `none` when it raises `urllib2.URLError`, which the
function turns into a `None` return; otherwise the regex findall over the
fetched page. -/
def get_images (fetch : Option String) : Option (List String) :=
  match fetch with
  | none => none
  | some page => some (findall_targz page)

/-- `download_image(image)`.  `present` is `files.exists(image)`;
`localHash` the first field of the local `md5sum` output; `remoteHash` the
first field of `md5sum` on the packet server, or the exception the remote
block raised (the bare `except: pass` swallows it).  The function always
returns normally; the value is its event trace. -/
def download_image (image : String) (present : Bool) (localHash : String)
    (remoteHash : Except String String) : List Event :=
  if present then
    Event.run (.md5sumCmd image) ::
      Event.remoteRun PACKET_SERVER PACKET_DIR (.md5sumCmd image) ::
      (match remoteHash with
       | .error _ => []
       | .ok rh =>
           if localHash ≠ rh then
             [.run (.rmFile image), .run (.wgetCmd (BASE_URL ++ image))]
           else [])
  else
    [.run (.wgetCmd (BASE_URL ++ image))]

/-- `extract_image(image, target_dir)`: unpack the archive into the
destination filesystem. -/
def extract_image (image targetDir : String) : List Event :=
  [.run (.tarExtract image targetDir)]

end Managevm

namespace Migration

/-!
Modelled from the spec: the Migration Engine (spec section 4.4) and the
Transaction/Rollback Engine (spec section 4.1) are not among the source
files — only their integration tests are (`tests/test_integration.py`,
`test_rollback_netcat` / `test_rollback_drbd` and the `check_vm_present` /
`check_vm_absent` assertions).  The model below follows the spec's words:
states Planning, Validating, Transferring, Finalizing, Committed, with
Rolled-back reachable from any state after Validating; Validating mutates
nothing; every forward step registers its compensation immediately after it
succeeds; rollback replays the registered compensations in strict reverse
order.
-/

/-- The facts about one hypervisor that the integration test's
`check_vm_present` / `check_vm_absent` assertions observe: whether the VM
is defined there, whether it is running there, and whether its logical
volume (block device) exists there. -/
structure HostState where
  defined : Bool
  running : Bool
  storage : Bool
  deriving DecidableEq, Repr

/-- Source and destination hypervisor state for one migration. -/
structure Fleet where
  src : HostState
  dst : HostState
  deriving DecidableEq, Repr

/-- The two offline transports of the spec: stream-copy (netcat) and
block-replicate (drbd). -/
inductive Transport where
  | netcat
  | drbd
  deriving DecidableEq, Repr

/-- One forward step of the migration together with the compensation it
registers on the transaction immediately after succeeding. -/
structure Step where
  describe : String
  forward : Fleet → Fleet
  comp : Fleet → Fleet

/-- Modelled from the spec: the Transferring-phase storage steps per
transport — stream-copy opens a byte stream into a freshly created
destination device, block-replicate establishes a replica on the
destination and promotes it after consistency; both register "kill
transfer / tear down replica", which removes the destination-side copy. -/
def transferSteps : Transport → List Step
  | .netcat =>
      [⟨"create destination volume",
        fun f => { f with dst := { f.dst with storage := true } },
        fun f => { f with dst := { f.dst with storage := false } }⟩,
       ⟨"stream-copy source device to destination (kill transfer on rollback)",
        fun f => f,
        fun f => { f with dst := { f.dst with storage := false } }⟩]
  | .drbd =>
      [⟨"establish synchronous replica on destination (tear down on rollback)",
        fun f => { f with dst := { f.dst with storage := true } },
        fun f => { f with dst := { f.dst with storage := false } }⟩,
       ⟨"wait for consistency and promote replica",
        fun f => f,
        fun f => { f with dst := { f.dst with storage := false } }⟩]

/-- Modelled from the spec: the mutating steps of an offline migration with
a forced configuration-management re-run (the scenario of the rollback
tests), in the spec's order — stop the VM at the source, copy storage via
the chosen transport, define the VM on the destination, re-run
configuration management, restart the VM, undefine/clean up the source.
Each step pairs with the compensation it registers. -/
def offlineSteps (t : Transport) : List Step :=
  [⟨"stop VM at source (restart at source on rollback)",
    fun f => { f with src := { f.src with running := false } },
    fun f => { f with src := { f.src with running := true } }⟩]
  ++ transferSteps t
  ++ [⟨"define VM on destination (undefine on rollback)",
       fun f => { f with dst := { f.dst with defined := true } },
       fun f => { f with dst := { f.dst with defined := false } }⟩,
      ⟨"re-run configuration management (kill in-flight agent on rollback)",
       fun f => f,
       fun f => f⟩,
      ⟨"start VM on destination (stop on rollback)",
       fun f => { f with dst := { f.dst with running := true } },
       fun f => { f with dst := { f.dst with running := false } }⟩,
      ⟨"undefine and clean up source (restore source definition on rollback)",
       fun f => { f with src := { f.src with defined := false, storage := false } },
       fun f => { f with src := { f.src with defined := true, storage := true } }⟩]

/-- Execute the first `k` steps (each registering its compensation as it
succeeds), fail before step `k` completes — a failing step has not mutated
and has registered nothing — then roll back: replay the `k` registered
compensations in strict reverse order. -/
def runWithFailure (steps : List Step) (k : Nat) (f0 : Fleet) : Fleet :=
  let taken := steps.take k
  let reached := taken.foldl (fun f st => st.forward f) f0
  taken.reverse.foldl (fun f st => st.comp f) reached

/-- Before the migration: VM defined, running, with storage on the source;
nothing on the destination. -/
def initialFleet : Fleet := ⟨⟨true, true, true⟩, ⟨false, false, false⟩⟩

/-- Number of hypervisors on which the VM is defined. -/
def definedCount (f : Fleet) : Nat :=
  (if f.src.defined then 1 else 0) + (if f.dst.defined then 1 else 0)

/-- The integration test's post-rollback assertions: present and running on
the source (`check_vm_present`), undefined with no block device on the
destination (`check_vm_absent`). -/
def rollbackInvariant (f : Fleet) : Prop :=
  f.src.defined = true ∧ f.src.running = true ∧ f.src.storage = true
    ∧ f.dst.defined = false ∧ f.dst.running = false ∧ f.dst.storage = false
    ∧ definedCount f = 1

instance (f : Fleet) : Decidable (rollbackInvariant f) := by
  unfold rollbackInvariant; infer_instance

end Migration

/-! ## Helper lemmas -/

namespace Igvm

theorem interpFs_append (a b : List Event) (fs : GuestFs) :
    interpFs (a ++ b) fs = interpFs b (interpFs a fs) := by
  simp [interpFs, List.foldl_append]

theorem interpFs_cert_events (vm : VmObj) (cc : Bool) (tok : Option String)
    (out : HttpOutcome) (fs : GuestFs) :
    interpFs (cert_events vm cc tok out) fs = fs := by
  cases cc with
  | false => rfl
  | true =>
    cases tok with
    | none => rfl
    | some t =>
      cases out with
      | netError m => rfl
      | response code body =>
        by_cases hc : code = 200 <;>
          simp [cert_events, clear_cert_controller, hc, interpFs, applyEventFs]

theorem interpFs_tx_events (vm : VmObj) (tx : Bool) (fs : GuestFs) :
    interpFs (tx_events vm tx) fs = fs := by
  cases tx <;> simp [tx_events, interpFs, applyEventFs]

end Igvm

/-! ## Claim theorems -/

/-- C1: for every migration that fails after the Validating state — in
particular an offline migration whose configuration-management re-run fails,
with either the netcat or the drbd transport, failing at any point from the
first mutating step up to and including the final commit — after rollback
the VM is defined and running on exactly one hypervisor: present and running
with its storage on the original source host, and undefined with no block
device on the destination host; never on zero hosts and never on two. -/
theorem migration_rollback_single_host (t : Migration.Transport)
    (k : Fin ((Migration.offlineSteps t).length + 1)) :
    Migration.rollbackInvariant
      (Migration.runWithFailure (Migration.offlineSteps t) k Migration.initialFleet) := by
  cases t with
  | netcat => revert k; decide
  | drbd => revert k; decide

/-- C2: every call to `run_puppet` with a non-null transaction registers the
compensating `pkill` of the in-flight Puppet agent (matching the agent
command line containing the VM's FQDN) on the transaction immediately before
the agent command is executed on the hypervisor — whether or not the agent
run subsequently succeeds, and under every certificate-clearing
configuration. -/
theorem run_puppet_registers_kill_compensation (vm : Igvm.VmObj)
    (clear_cert : Bool) (token : Option String) (out : Igvm.HttpOutcome)
    (agentOk : Bool) :
    ∃ pre post,
      (Igvm.run_puppet vm clear_cert true token out agentOk).snd =
        pre ++
          [Igvm.Event.registerRollback "Kill puppet" (.pkillPuppet vm.fqdn),
           Igvm.agent_event vm] ++ post := by
  refine ⟨Igvm.block_autostart ++ Igvm.cert_events vm clear_cert token out,
    if agentOk then Igvm.unblock_autostart else [], ?_⟩
  cases agentOk <;> simp [Igvm.run_puppet, Igvm.tx_events]

/-- C3: every invocation of `run_puppet` first installs the autostart block
(an executable `usr/sbin/policy-rc.d` whose content is the shebang line
followed by `exit 101`) and only then invokes the configuration-management
agent: the trace is exactly the blocking events, the cert/transaction
events, the agent command, and — when the agent run succeeds and the
function returns — the unblocking removal, after which the guest root no
longer contains the autostart block. -/
theorem run_puppet_blocks_then_unblocks_autostart (vm : Igvm.VmObj)
    (clear_cert tx : Bool) (token : Option String) (out : Igvm.HttpOutcome)
    (agentOk : Bool) :
    (Igvm.run_puppet vm clear_cert tx token out agentOk).snd =
        Igvm.block_autostart ++ Igvm.cert_events vm clear_cert token out
          ++ Igvm.tx_events vm tx ++ [Igvm.agent_event vm]
          ++ (if agentOk then Igvm.unblock_autostart else [])
      ∧ Igvm.interpFs
          (Igvm.block_autostart ++ Igvm.cert_events vm clear_cert token out
            ++ Igvm.tx_events vm tx) Igvm.cleanFs = Igvm.blockedFs
      ∧ (Igvm.run_puppet vm clear_cert tx token out true).fst = true
      ∧ Igvm.interpFs (Igvm.run_puppet vm clear_cert tx token out true).snd
          Igvm.cleanFs = Igvm.cleanFs := by
  refine ⟨?_, ?_, ?_, ?_⟩
  · cases agentOk <;> simp [Igvm.run_puppet]
  · rw [Igvm.interpFs_append, Igvm.interpFs_append, Igvm.interpFs_cert_events,
      Igvm.interpFs_tx_events]
    rfl
  · rfl
  · show Igvm.interpFs
      (Igvm.block_autostart ++ Igvm.cert_events vm clear_cert token out
        ++ Igvm.tx_events vm tx ++ [Igvm.agent_event vm] ++ Igvm.unblock_autostart)
      Igvm.cleanFs = Igvm.cleanFs
    rw [Igvm.interpFs_append, Igvm.interpFs_append, Igvm.interpFs_append,
      Igvm.interpFs_append, Igvm.interpFs_cert_events, Igvm.interpFs_tx_events]
    rfl

/-- C4: when `run_puppet` is called with `clear_cert` set, the certificate
for the VM's identity is cleared before the agent invocation — through the
controller endpoint when a `PUPPET_CONTROLLER_TOKEN` credential is present
(any outcome producing only a log message), and through `puppet cert clean`
on the CA host (warn-only) when no credential is available — and the
subsequent configuration-management agent run is always attempted: clearing
never aborts the function. -/
theorem run_puppet_clear_cert_nonfatal (vm : Igvm.VmObj) (t : String)
    (tx : Bool) (token : Option String) (out : Igvm.HttpOutcome)
    (agentOk : Bool) :
    (∃ m, Igvm.cert_events vm true (some t) out =
        [Igvm.Event.httpPost ("https://" ++ vm.puppet_ca ++ ":9000/")
           [("token", t), ("hostname", vm.hostname), ("command", "clear")],
         Igvm.Event.logInfo m])
      ∧ Igvm.cert_events vm true none out =
          [Igvm.Event.warnOnlyRun vm.puppet_ca (.certClean vm.fqdn)]
      ∧ (Igvm.run_puppet vm true tx token out agentOk).snd =
          Igvm.block_autostart ++ Igvm.cert_events vm true token out
            ++ Igvm.tx_events vm tx ++ [Igvm.agent_event vm]
            ++ (if agentOk then Igvm.unblock_autostart else [])
      ∧ Igvm.agent_event vm ∈ (Igvm.run_puppet vm true tx token out agentOk).snd := by
  refine ⟨?_, rfl, ?_, ?_⟩
  · cases out with
    | netError m => exact ⟨_, rfl⟩
    | response code body =>
      by_cases hc : code = 200
      · exact ⟨"Cleared Puppet cert of " ++ vm.hostname ++ " on " ++ vm.puppet_ca,
          by simp [Igvm.cert_events, Igvm.clear_cert_controller, hc]⟩
      · exact ⟨"Failed to clear Puppet cert of " ++ vm.hostname ++ " on "
            ++ vm.puppet_ca ++ ": " ++ Igvm.pyStrip body,
          by simp [Igvm.cert_events, Igvm.clear_cert_controller, hc]⟩
  · cases agentOk <;> simp [Igvm.run_puppet]
  · cases agentOk <;> simp [Igvm.run_puppet, Igvm.agent_event]

/-- C5: `download_image` fetches the archive when it is absent on the host;
when it is present and the packet server's checksum is obtained, a matching
local md5 means the existing file is reused with no download, and a
mismatch means the stale file is deleted and the archive downloaded again;
`extract_image` unpacks the archive into the destination filesystem. -/
theorem download_image_checksum_verification (image lh rh dir : String) :
    Managevm.download_image image false lh (.ok rh) =
        [.run (.wgetCmd (Managevm.BASE_URL ++ image))]
      ∧ (lh = rh →
          Managevm.download_image image true lh (.ok rh) =
            [.run (.md5sumCmd image),
             .remoteRun Managevm.PACKET_SERVER Managevm.PACKET_DIR (.md5sumCmd image)])
      ∧ (lh ≠ rh →
          Managevm.download_image image true lh (.ok rh) =
            [.run (.md5sumCmd image),
             .remoteRun Managevm.PACKET_SERVER Managevm.PACKET_DIR (.md5sumCmd image),
             .run (.rmFile image),
             .run (.wgetCmd (Managevm.BASE_URL ++ image))])
      ∧ Managevm.extract_image image dir = [.run (.tarExtract image dir)] := by
  refine ⟨rfl, fun h => ?_, fun h => ?_, rfl⟩
  · simp [Managevm.download_image, h]
  · simp [Managevm.download_image, h]

/-- C5 witness: evaluated on the archive `squeeze.tar.gz` with a matching,
then a mismatching, local checksum. -/
theorem download_image_checksum_verification_witness :
    Managevm.download_image "squeeze.tar.gz" false "aa" (.ok "bb") =
        [.run (.wgetCmd (Managevm.BASE_URL ++ "squeeze.tar.gz"))]
      ∧ Managevm.download_image "squeeze.tar.gz" true "aa" (.ok "aa") =
          [.run (.md5sumCmd "squeeze.tar.gz"),
           .remoteRun Managevm.PACKET_SERVER Managevm.PACKET_DIR
             (.md5sumCmd "squeeze.tar.gz")]
      ∧ Managevm.download_image "squeeze.tar.gz" true "aa" (.ok "bb") =
          [.run (.md5sumCmd "squeeze.tar.gz"),
           .remoteRun Managevm.PACKET_SERVER Managevm.PACKET_DIR
             (.md5sumCmd "squeeze.tar.gz"),
           .run (.rmFile "squeeze.tar.gz"),
           .run (.wgetCmd (Managevm.BASE_URL ++ "squeeze.tar.gz"))] :=
  ⟨(download_image_checksum_verification "squeeze.tar.gz" "aa" "bb" "/mnt").1,
   (download_image_checksum_verification "squeeze.tar.gz" "aa" "aa" "/mnt").2.1 rfl,
   (download_image_checksum_verification "squeeze.tar.gz" "aa" "bb" "/mnt").2.2.1
     (by decide)⟩

/-- C6: `clear_cert_controller` sends exactly the parameters
`{token, hostname, command=clear}` to the controller's HTTPS endpoint on
port 9000, and returns normally if and only if the response has HTTP status
200; a non-200 response raises `IGVMError` carrying the stripped response
body, and a network-level error raises `IGVMError` carrying the exception. -/
theorem clear_cert_controller_params_and_status (hostname pm token : String)
    (out : Igvm.HttpOutcome) :
    (Igvm.clear_cert_controller hostname pm token out).snd =
        [.httpPost ("https://" ++ pm ++ ":9000/")
           [("token", token), ("hostname", hostname), ("command", "clear")]]
      ∧ ((Igvm.clear_cert_controller hostname pm token out).fst = .ok ()
          ↔ ∃ body, out = .response 200 body)
      ∧ (∀ msg, (Igvm.clear_cert_controller hostname pm token
            (.netError msg)).fst = .error ⟨msg⟩)
      ∧ (∀ code body, code ≠ 200 →
          (Igvm.clear_cert_controller hostname pm token
            (.response code body)).fst = .error ⟨Igvm.pyStrip body⟩) := by
  refine ⟨?_, ?_, fun msg => rfl, fun code body hc => ?_⟩
  · cases out with
    | netError m => rfl
    | response code body =>
      by_cases hc : code = 200 <;> simp [Igvm.clear_cert_controller, hc]
  · constructor
    · intro h
      cases out with
      | netError m => simp [Igvm.clear_cert_controller] at h
      | response code body =>
        by_cases hc : code = 200
        · exact ⟨body, by rw [hc]⟩
        · simp [Igvm.clear_cert_controller, hc] at h
    · rintro ⟨body, rfl⟩
      simp [Igvm.clear_cert_controller]
  · simp [Igvm.clear_cert_controller, hc]

/-- C6 witness: evaluated on a 200 response, a 403 response and a socket
error for a concrete host. -/
theorem clear_cert_controller_params_and_status_witness :
    (Igvm.clear_cert_controller "web-1" "ca.example" "tok"
        (.response 200 "ok")).fst = .ok ()
      ∧ (Igvm.clear_cert_controller "web-1" "ca.example" "tok"
          (.response 403 " denied ")).fst = .error ⟨"denied"⟩
      ∧ (Igvm.clear_cert_controller "web-1" "ca.example" "tok"
          (.netError "unreachable")).fst = .error ⟨"unreachable"⟩ :=
  ⟨((clear_cert_controller_params_and_status "web-1" "ca.example" "tok"
      (.response 200 "ok")).2.1).mpr ⟨"ok", rfl⟩,
   by
    have h := (clear_cert_controller_params_and_status "web-1" "ca.example" "tok"
      (.response 403 " denied ")).2.2.2 403 " denied " (by decide)
    rw [h, show Igvm.pyStrip " denied " = "denied" from by decide],
   (clear_cert_controller_params_and_status "web-1" "ca.example" "tok"
      (.netError "unreachable")).2.2.1 "unreachable"⟩

/-- C7: for a VM whose storage is mounted, `prepare_vm` writes the identity
files into the guest root — `etc/hostname` and `etc/mailname` carrying the
VM's FQDN, the network interfaces file, an fstab referencing the
hypervisor-reported block device, and the resolver configuration — removes
all pre-existing host SSH key material before any fresh host key is
generated, and captures the generated RSA public key into the VM's
inventory record (`server_obj['ssh_pubkey']`). -/
theorem prepare_vm_identity_and_keys (hv : Igvm.HvObj) (vm : Igvm.VmObj)
    (content key : String)
    (h : Igvm.get_ssh_public_key "rsa" content = some key) :
    Igvm.prepare_vm hv vm content =
      ([.run (.echoToFile vm.fqdn "etc/hostname"),
        .run (.echoToFile vm.fqdn "etc/mailname")]
       ++ Igvm.create_interfaces vm.network_config
       ++ (Igvm.Event.run .rmSshHostKeys
            :: (Igvm.key_types vm.os).map (fun t => Igvm.Event.run (.sshKeygen t)))
       ++ [.getFile "etc/ssh/ssh_host_rsa_key.pub",
           .uploadTemplate "etc/fstab" "etc/fstab"
             [("blk_dev", .s hv.blockDevice), ("type", .s "xfs"),
              ("mount_options", .s "defaults")],
           .uploadTemplate "etc/hosts" "etc/hosts" [],
           .uploadTemplate "etc/inittab" "etc/inittab" [],
           .uploadTemplate "etc/resolv.conf" "etc/resolv.conf"
             [("dns_servers", .list Igvm.DEFAULT_DNS_SERVERS)]]
       ++ Igvm.generate_swap (hv.mountPath ++ "/swap") Igvm.DEFAULT_SWAP_SIZE
       ++ [.createAuthorizedKeys hv.mountPath],
       some key) := by
  simp [Igvm.prepare_vm, h, Igvm.create_ssh_keys]

/-- C7 witness: evaluated on the sample hypervisor and VM with a
well-formed RSA public-key file. -/
theorem prepare_vm_identity_and_keys_witness :
    Igvm.get_ssh_public_key "rsa" Igvm.sampleRsaPub = some "AAAAB3Nza"
      ∧ Igvm.prepare_vm Igvm.sampleHv Igvm.sampleVm Igvm.sampleRsaPub =
        ([.run (.echoToFile Igvm.sampleVm.fqdn "etc/hostname"),
          .run (.echoToFile Igvm.sampleVm.fqdn "etc/mailname")]
         ++ Igvm.create_interfaces Igvm.sampleVm.network_config
         ++ (Igvm.Event.run .rmSshHostKeys
              :: (Igvm.key_types Igvm.sampleVm.os).map
                   (fun t => Igvm.Event.run (.sshKeygen t)))
         ++ [.getFile "etc/ssh/ssh_host_rsa_key.pub",
             .uploadTemplate "etc/fstab" "etc/fstab"
               [("blk_dev", .s Igvm.sampleHv.blockDevice), ("type", .s "xfs"),
                ("mount_options", .s "defaults")],
             .uploadTemplate "etc/hosts" "etc/hosts" [],
             .uploadTemplate "etc/inittab" "etc/inittab" [],
             .uploadTemplate "etc/resolv.conf" "etc/resolv.conf"
               [("dns_servers", .list Igvm.DEFAULT_DNS_SERVERS)]]
         ++ Igvm.generate_swap (Igvm.sampleHv.mountPath ++ "/swap")
              Igvm.DEFAULT_SWAP_SIZE
         ++ [.createAuthorizedKeys Igvm.sampleHv.mountPath],
         some "AAAAB3Nza") := by
  have hk : Igvm.get_ssh_public_key "rsa" Igvm.sampleRsaPub = some "AAAAB3Nza" := by
    decide
  exact ⟨hk, prepare_vm_identity_and_keys Igvm.sampleHv Igvm.sampleVm
    Igvm.sampleRsaPub "AAAAB3Nza" hk⟩

/-- C8 counterexample: the claim that the prepare step receives the DNS
server list and the swap size as explicit parameters fails on the code —
`prepare_vm` takes no such parameters and uses the imported module-level
defaults, so on a concrete input it differs from the spec-prescribed
explicitly-configured prepare step evaluated at any non-default
configuration. -/
theorem prepare_vm_not_explicit_config :
    Igvm.prepare_vm_explicit ["192.0.2.53"] 512 Igvm.sampleHv Igvm.sampleVm
        Igvm.sampleRsaPub
      ≠ Igvm.prepare_vm Igvm.sampleHv Igvm.sampleVm Igvm.sampleRsaPub := by
  decide

/-- C8 amended: the prepare step of the Build workflow reads the DNS server
list and the swap size from the module-level default constants
(`DEFAULT_DNS_SERVERS`, `DEFAULT_SWAP_SIZE` imported from `igvm.settings`)
rather than receiving them as explicit configuration parameters: whatever
its inputs, its resolver upload carries `DEFAULT_DNS_SERVERS` and its swap
generation uses `DEFAULT_SWAP_SIZE`. -/
theorem prepare_vm_uses_module_defaults (hv : Igvm.HvObj) (vm : Igvm.VmObj)
    (content key : String)
    (h : Igvm.get_ssh_public_key "rsa" content = some key) :
    Igvm.Event.uploadTemplate "etc/resolv.conf" "etc/resolv.conf"
        [("dns_servers", .list Igvm.DEFAULT_DNS_SERVERS)]
        ∈ (Igvm.prepare_vm hv vm content).fst
      ∧ Igvm.Event.run
          (.ddSwap (hv.mountPath ++ "/swap") Igvm.DEFAULT_SWAP_SIZE)
          ∈ (Igvm.prepare_vm hv vm content).fst := by
  constructor <;> simp [Igvm.prepare_vm, h, Igvm.generate_swap]

/-- C8 amended witness: evaluated on the sample hypervisor and VM. -/
theorem prepare_vm_uses_module_defaults_witness :
    Igvm.Event.uploadTemplate "etc/resolv.conf" "etc/resolv.conf"
        [("dns_servers", .list Igvm.DEFAULT_DNS_SERVERS)]
        ∈ (Igvm.prepare_vm Igvm.sampleHv Igvm.sampleVm Igvm.sampleRsaPub).fst
      ∧ Igvm.Event.run
          (.ddSwap (Igvm.sampleHv.mountPath ++ "/swap") Igvm.DEFAULT_SWAP_SIZE)
          ∈ (Igvm.prepare_vm Igvm.sampleHv Igvm.sampleVm Igvm.sampleRsaPub).fst :=
  prepare_vm_uses_module_defaults Igvm.sampleHv Igvm.sampleVm Igvm.sampleRsaPub
    "AAAAB3Nza" (by decide)

/-- C9: in `download_image`, when a local copy of the image exists, an
exception raised during the remote checksum comparison is silently
swallowed: the function returns normally with exactly the local and
attempted remote checksum commands in its trace — no deletion, no
re-download, and no verification result reported to the caller. -/
theorem download_image_swallows_remote_failure (image lh msg : String) :
    Managevm.download_image image true lh (.error msg) =
      [.run (.md5sumCmd image),
       .remoteRun Managevm.PACKET_SERVER Managevm.PACKET_DIR (.md5sumCmd image)] :=
  rfl

namespace Managevm

theorem findTarGz_mem_suffix :
    ∀ (fuel : Nat) (s : List Char) (g : String),
      g ∈ findTarGz fuel s → targzSuffix <:+ g.data := by
  intro fuel
  induction fuel with
  | zero => intro s g hg; simp [findTarGz] at hg
  | succ n ih =>
    intro s g hg
    cases s with
    | nil => simp [findTarGz] at hg
    | cons c tail =>
      rw [findTarGz] at hg
      cases hm : matchAnchorAt (c :: tail) with
      | none =>
        simp only [hm] at hg
        exact ih tail g hg
      | some afterHref =>
        simp only [hm] at hg
        cases hs : scanTarGz afterHref with
        | none =>
          simp only [hs] at hg
          exact ih tail g hg
        | some xr =>
          obtain ⟨x, rest⟩ := xr
          simp only [hs] at hg
          rcases List.mem_cons.mp hg with hg | hg
          · exact hg ▸ ⟨x, rfl⟩
          · exact ih rest g hg

end Managevm

/-- C10: `get_images` returns `None` — not an empty list and without
raising — when fetching the image index page fails with a URL error;
otherwise it returns the findall of the source's hyperlink regex over the
fetched page, every element of which ends in `.tar.gz`. -/
theorem get_images_url_error_and_targz_links :
    Managevm.get_images none = none
      ∧ (∀ page, Managevm.get_images (some page) =
          some (Managevm.findall_targz page))
      ∧ (∀ page g, g ∈ Managevm.findall_targz page →
          Managevm.targzSuffix <:+ g.data) := by
  refine ⟨rfl, fun page => rfl, fun page g hg => ?_⟩
  exact Managevm.findTarGz_mem_suffix page.data.length page.data g hg

/-- C10 witness: evaluated on a concrete index page with two archive links
and one non-archive link. -/
theorem get_images_url_error_and_targz_links_witness :
    Managevm.get_images
        (some "<a href=\"squeeze.tar.gz\">s</a> <a  href=\"wheezy.tar.gz\"> <a href=\"x.zip\">") =
        some ["squeeze.tar.gz", "wheezy.tar.gz"]
      ∧ Managevm.targzSuffix <:+ "squeeze.tar.gz".data :=
  ⟨by decide,
   get_images_url_error_and_targz_links.2.2
     "<a href=\"squeeze.tar.gz\">s</a> <a  href=\"wheezy.tar.gz\"> <a href=\"x.zip\">"
     "squeeze.tar.gz" (by decide)⟩
